import Mathlib

/-!
Shallow embedding of the firefly-tg-bot-rs core (src/main.rs, src/telegram.rs,
src/wit.rs).

Modelling conventions:
* The sled key-value tree `db.users` becomes an association list from the
  byte-string key to the stored `UserClue`; `insert` overwrites an existing
  key in place.
* Outbound HTTP effects (Telegram `sendMessage` / `sendChatAction`, the
  Firefly ledger `create_transaction` call) are recorded in effect logs and
  modelled as succeeding; transport failures of those calls are outside this
  embedding (the webhook-handler model below treats them separately).
* Rust `Result`-style early returns (the `?` operator and `ok_or`) become a
  `ProcOut.err` field: when it is `some msg`, processing aborted at that
  point and the recorded store/effects are those performed before the abort.
* The `f64` field `WitAmountOfMoney.value` is only ever observed through
  `to_string()` in the source, so the embedding carries it directly as its
  decimal rendering (a `String`).
* `i32` identifiers become `Int`; no claim involves overflow.
* The 5-second `sleep` before dispatch and the log lines have no observable
  effect in this model and are omitted.
-/

namespace FireflyBot

/-- Mirrors `telegram.rs` `User` (Telegram sender). -/
structure User where
  id : Int
  is_bot : Bool
  first_name : String
  last_name : Option String
  username : Option String
deriving DecidableEq, Repr

/-- Mirrors `telegram.rs` `Chat`. -/
structure Chat where
  id : Int
  chat_type : String
  username : Option String
  first_name : Option String
  last_name : Option String
deriving DecidableEq, Repr

/-- Mirrors `telegram.rs` `Message`. The source field `from` is a Lean
keyword, so it is named `from_user` here. -/
structure Message where
  message_id : Int
  date : Int
  text : Option String
  chat : Chat
  from_user : Option User
deriving DecidableEq, Repr

/-- Mirrors `telegram.rs` `Update`. -/
structure Update where
  update_id : Int
  message : Option Message
deriving DecidableEq, Repr

/-- Mirrors `telegram.rs` `State` (request-scoped sender/chat ids). -/
structure State where
  from_id : Int
  chat_id : Int
deriving DecidableEq, Repr

/-- Mirrors `State::user_id`: `format!("telegram-user-{}", self.from_id)`. -/
def State.user_id (s : State) : String :=
  "telegram-user-" ++ toString s.from_id

/-- Mirrors `telegram.rs` `UserClue` (the persisted per-user record).
Rust derives `Default` (id 0, empty strings). -/
structure UserClue where
  id : Int
  state : String
  firefly_url : String
  firefly_pat : String
deriving DecidableEq, Repr

instance : Inhabited UserClue := ⟨⟨0, "", "", ""⟩⟩

/-- Mirrors `UserClue::new`: sets `id` and `state = "upload-url"`, the rest
comes from `..Default::default()`. -/
def UserClue.new (id : Int) : UserClue :=
  { id := id, state := "upload-url", firefly_url := "", firefly_pat := "" }

/-- Mirrors `UserClue::is_ready`: `self.state.eq("ready")`. -/
def UserClue.is_ready (u : UserClue) : Bool :=
  u.state = "ready"

/-- The sled tree `db.users`, as an association list keyed by the
user-id string (the source stores the UTF-8 bytes of that string). -/
abbrev Store := List (String × UserClue)

/-- Mirrors `Tree::get`. -/
def storeGet : Store → String → Option UserClue
  | [], _ => none
  | (k, v) :: rest, key => if k = key then some v else storeGet rest key

/-- Mirrors `Tree::insert` (overwrites an existing key). -/
def storeInsert : Store → String → UserClue → Store
  | [], key, v => [(key, v)]
  | (k, w) :: rest, key, v =>
      if k = key then (key, v) :: rest else (k, w) :: storeInsert rest key v

/-- Mirrors `Tree::remove`. -/
def storeRemove : Store → String → Store
  | [], _ => []
  | (k, w) :: rest, key =>
      if k = key then storeRemove rest key else (k, w) :: storeRemove rest key

/-- Mirrors `Tree::contains_key`. -/
def storeContains (s : Store) (key : String) : Bool :=
  (storeGet s key).isSome

/-! Wit.ai response model, mirroring `wit.rs`. -/

/-- Mirrors `wit.rs` `Intent`. -/
structure Intent where
  name : String
deriving DecidableEq, Repr

/-- Mirrors `wit.rs` `AccountEntity`. -/
structure AccountEntity where
  role : String
  value : String
deriving DecidableEq, Repr

/-- Mirrors `wit.rs` `WitAmountOfMoney`. The source field `value: f64` is
only observed through `to_string()`, so it is carried here as that decimal
rendering. -/
structure WitAmountOfMoney where
  role : String
  unit : String
  value : String
deriving DecidableEq, Repr

/-- Mirrors `wit.rs` `ActionEntity`. -/
structure ActionEntity where
  role : String
deriving DecidableEq, Repr

/-- Mirrors `wit.rs` `Deed`. -/
structure Deed where
  role : String
  value : String
deriving DecidableEq, Repr

/-- Mirrors `wit.rs` `Entities`. -/
structure Entities where
  destination : List AccountEntity
  origin : List AccountEntity
  amount_of_money : List WitAmountOfMoney
  withdraw : Option (List ActionEntity)
  deposit : Option (List ActionEntity)
  transfer : Option (List ActionEntity)
  deed : Option (List Deed)
deriving DecidableEq, Repr

/-- Mirrors `wit.rs` `Flow`. -/
structure Flow where
  value : String
deriving DecidableEq, Repr

/-- Mirrors `wit.rs` `Traits`. -/
structure Traits where
  flow : List Flow
deriving DecidableEq, Repr

/-- Mirrors `wit.rs` `WitMessageResponse`. -/
structure WitMessageResponse where
  text : String
  intents : List Intent
  entities : Entities
  traits : Traits
deriving DecidableEq, Repr

/-- Mirrors `telegram.rs` `Transaction` (the ledger payload item). -/
structure Transaction where
  transact_type : String
  description : String
  date : String
  amount : String
  source_name : String
  destination_name : String
deriving DecidableEq, Repr

/-- One Telegram `sendMessage` call: target chat id and text. -/
structure Reply where
  chat_id : Int
  text : String
deriving DecidableEq, Repr

/-- Result of processing one update: the final store, the `sendChatAction`
chat ids, the `sendMessage` replies, the ledger `create_transaction`
payload items, and `some msg` when processing aborted with `Err(msg)`. -/
structure ProcOut where
  store : Store
  chatActions : List Int
  replies : List Reply
  ledgerCalls : List Transaction
  err : Option String
deriving DecidableEq, Repr

/-- An early `Err(msg)` return: store as it stood, no further effects. -/
def ProcOut.abort (store : Store) (msg : String) : ProcOut :=
  { store := store, chatActions := [], replies := [], ledgerCalls := [],
    err := some msg }

/-- A reply-only success: store unchanged, one `sendMessage`. -/
def ProcOut.replyOnly (store : Store) (chat_id : Int) (text : String) : ProcOut :=
  { store := store, chatActions := [], replies := [⟨chat_id, text⟩],
    ledgerCalls := [], err := none }

/-- Mirrors `TelegramContext::cmd_start`. -/
def cmd_start (st : State) (store : Store) : ProcOut :=
  if storeContains store st.user_id then
    ProcOut.replyOnly store st.chat_id "Type /reset to reset your account."
  else
    ProcOut.replyOnly (storeInsert store st.user_id (UserClue.new st.from_id))
      st.chat_id
      "Please enter your *Firefly III* server\x27s URL (e.g. https://my-firefly-iii.com).\n\nIt must start with HTTP/s protocol scheme."

/-- Mirrors `TelegramContext::cmd_reset`. -/
def cmd_reset (st : State) (store : Store) : ProcOut :=
  ProcOut.replyOnly (storeRemove store st.user_id) st.chat_id "Reset complete."

/-- Mirrors `TelegramContext::cmd_help`. -/
def cmd_help (st : State) (store : Store) : ProcOut :=
  if storeContains store st.user_id then
    ProcOut.replyOnly store st.chat_id
      "\n                Send a message in the following format \n`The deed. And the transaction.`\n                "
  else
    ProcOut.replyOnly store st.chat_id "Type /start to initiate the setup process."

/-- Mirrors `TelegramContext::cmd_test`. -/
def cmd_test (st : State) (store : Store) : ProcOut :=
  ProcOut.replyOnly store st.chat_id "Message Ack"

/-- The Unicode White_Space property, the character class stripped by
Rust `str::trim`: U+0009..U+000D, U+0020, U+0085, U+00A0, U+1680,
U+2000..U+200A, U+2028, U+2029, U+202F, U+205F, U+3000. -/
def rustIsWhitespace (c : Char) : Bool :=
  decide ((0x9 ≤ c.toNat ∧ c.toNat ≤ 0xD) ∨ c.toNat = 0x20 ∨ c.toNat = 0x85 ∨
    c.toNat = 0xA0 ∨ c.toNat = 0x1680 ∨
    (0x2000 ≤ c.toNat ∧ c.toNat ≤ 0x200A) ∨ c.toNat = 0x2028 ∨
    c.toNat = 0x2029 ∨ c.toNat = 0x202F ∨ c.toNat = 0x205F ∨ c.toNat = 0x3000)

/-- Models Rust `str::trim`: removes leading and trailing Unicode
whitespace characters from both ends of the string (structural recursion
on the character list). -/
def rustTrim (s : String) : String :=
  String.mk (((s.data.dropWhile rustIsWhitespace).reverse.dropWhile rustIsWhitespace).reverse)

/-- Mirrors `TelegramContext::upload_url`. -/
def upload_url (st : State) (store : Store) (payload : String) : ProcOut :=
  let firefly_url := rustTrim payload
  match storeGet store st.user_id with
  | none => ProcOut.abort store "Cannot find the user in the database"
  | some user =>
      let user := { user with firefly_url := firefly_url, state := "upload-pat" }
      ProcOut.replyOnly (storeInsert store st.user_id user) st.chat_id
        ("Your *Firefly III* URL\x27s been saved!\n\nNow please enter your firefly *Personal Access Token* (PAT), you can generate it from PAT section here - "
          ++ firefly_url ++ "/profile")

/-- Mirrors `TelegramContext::upload_pat`. -/
def upload_pat (st : State) (store : Store) (payload : String) : ProcOut :=
  let firefly_pat := rustTrim payload
  match storeGet store st.user_id with
  | none => ProcOut.abort store "Cannot find the user in the database"
  | some user =>
      let user := { user with firefly_pat := firefly_pat, state := "ready" }
      ProcOut.replyOnly (storeInsert store st.user_id user) st.chat_id
        "Setup complete. You can now use the telegram bot to store your transaction."

/-- Mirrors `TelegramContext::transact`. `today` is the processing-time date
string `Utc::now().format("%Y-%m-%d")`; `resp` is the decoded wit.ai
response for the payload text. -/
def transact (today : String) (st : State) (store : Store)
    (resp : WitMessageResponse) : ProcOut :=
  if resp.intents.length > 0 then
    let description :=
      (((resp.entities.deed.getD []).get? 0).getD
        { role := "", value := resp.text }).value
    match resp.entities.amount_of_money.get? 0 with
    | none => ProcOut.abort store "The amount of money is empty."
    | some amt =>
      match resp.entities.origin.get? 0 with
      | none => ProcOut.abort store "The account origin is empty."
      | some origin =>
        match resp.entities.destination.get? 0 with
        | none => ProcOut.abort store "The account destination is empty."
        | some dest =>
          match resp.traits.flow.get? 0 with
          | none => ProcOut.abort store "The transact type is empty."
          | some fl =>
            let tr : Transaction :=
              { transact_type := fl.value, amount := amt.value,
                description := description, source_name := origin.value,
                destination_name := dest.value, date := today }
            { store := store, chatActions := [],
              replies := [⟨st.chat_id, "Transaction created."⟩],
              ledgerCalls := [tr], err := none }
  else
    ProcOut.replyOnly store st.chat_id
      "Type /help to check the proper way of creating a transaction."

/-- Mirrors `TelegramContext::cmd_transact`. -/
def cmd_transact (today : String) (st : State) (store : Store)
    (payload : String) (resp : WitMessageResponse) : ProcOut :=
  match storeGet store st.user_id with
  | some user =>
      if user.is_ready then
        transact today st store resp
      else if user.state = "upload-url" then
        upload_url st store payload
      else if user.state = "upload-pat" then
        upload_pat st store payload
      else
        ProcOut.abort store "Unknown user state"
  | none =>
      ProcOut.replyOnly store st.chat_id "Type /start to initiate the setup process."

/-- The command dispatch in `TelegramContext::process_message`
(`match text_payload.as_str()`): exact, case-sensitive string match. -/
def dispatch (today : String) (st : State) (store : Store)
    (payload : String) (resp : WitMessageResponse) : ProcOut :=
  if payload = "/start" then cmd_start st store
  else if payload = "/reset" then cmd_reset st store
  else if payload = "/help" then cmd_help st store
  else if payload = "/test" then cmd_test st store
  else cmd_transact today st store payload resp

/-- Mirrors `TelegramContext::process_message`: unwraps the update, sets the
request state from the sender id and chat id, sends a typing
`sendChatAction`, then dispatches on the text. -/
def process_message (today : String) (store : Store) (update : Update)
    (resp : WitMessageResponse) : ProcOut :=
  match update.message with
  | none => ProcOut.abort store "No message"
  | some message =>
    match message.text with
    | none => ProcOut.abort store "Empty text payload"
    | some text_payload =>
      match message.from_user with
      | none => ProcOut.abort store "No user from included in payload"
      | some u =>
        let st : State := { from_id := u.id, chat_id := message.chat.id }
        let out := dispatch today st store text_payload resp
        { out with chatActions := st.chat_id :: out.chatActions }

/-! Webhook handler model, mirroring `main.rs`. -/

/-- Outcome of `process_message` as seen by `handle_telegram_message`:
either a Telegram HTTP response (its status, and whether its body could be
read — `none` models a transport failure inside `t.bytes()`), or an error. -/
inductive ProcResult where
  | ok (status : Nat) (bodyRead : Option String)
  | err (msg : String)
deriving DecidableEq, Repr

/-- What the handler does to the process: answer with an HTTP status, or
terminate the process (a Rust panic from `expect` / `unwrap`). -/
inductive HandleResult where
  | http (status : Nat)
  | panic
deriving DecidableEq, Repr

/-- Mirrors `main.rs` `send_report`: posts to the fixed operator chat id and
calls `.expect(...)` on the transport result. `none` models the panic. -/
def send_report (transportOk : Bool) : Option Unit :=
  if transportOk then some () else none

/-- Mirrors the `match tg_resp` in `main.rs` `handle_telegram_message`:
status 200 yields an empty 200; a non-200 status reads the body with
`t.bytes().await.unwrap()` (panicking on a transport failure) and yields a
500; an `Err` is reported via `send_report` (whose own failure panics) and
yields a 500. -/
def handle_telegram_message (proc : ProcResult) (reportOk : Bool) : HandleResult :=
  match proc with
  | .ok status bodyRead =>
      if status = 200 then HandleResult.http 200
      else
        match bodyRead with
        | some _ => HandleResult.http 500
        | none => HandleResult.panic
  | .err _ =>
      match send_report reportOk with
      | some _ => HandleResult.http 500
      | none => HandleResult.panic

/-! Spec-side predicates and general lemmas. -/

/-- The spec data-model invariant for one record: a record in state
`"ready"` has a non-empty ledger URL and a non-empty access token. -/
def readyInv (u : UserClue) : Prop :=
  u.state = "ready" → u.firefly_url ≠ "" ∧ u.firefly_pat ≠ ""

/-- The invariant over a whole store: every stored record satisfies
`readyInv`. -/
def storeReadyInv (s : Store) : Prop :=
  ∀ p ∈ s, readyInv p.2

theorem storeReadyInv_insert {s : Store} {k : String} {v : UserClue}
    (hs : storeReadyInv s) (hv : readyInv v) :
    storeReadyInv (storeInsert s k v) := by
  induction s with
  | nil =>
      intro p hp
      simp only [storeInsert, List.mem_singleton] at hp
      subst hp
      exact hv
  | cons hd tl ih =>
      intro p hp
      simp only [storeInsert] at hp
      split at hp
      · rcases List.mem_cons.mp hp with h | h
        · subst h; exact hv
        · exact hs p (List.mem_cons_of_mem _ h)
      · rcases List.mem_cons.mp hp with h | h
        · subst h; exact hs hd (List.mem_cons_self _ _)
        · exact ih (fun q hq => hs q (List.mem_cons_of_mem _ hq)) p h

/-- `State.user_id` never looks at the chat id. -/
theorem user_id_chat_independent (f c1 c2 : Int) :
    State.user_id ⟨f, c1⟩ = State.user_id ⟨f, c2⟩ := rfl

theorem cmd_start_store (st : State) (store : Store) :
    (cmd_start st store).store =
      if storeContains store st.user_id then store
      else storeInsert store st.user_id (UserClue.new st.from_id) := by
  unfold cmd_start
  split <;> rfl

theorem cmd_reset_store (st : State) (store : Store) :
    (cmd_reset st store).store = storeRemove store st.user_id := rfl

theorem cmd_help_store (st : State) (store : Store) :
    (cmd_help st store).store = store := by
  unfold cmd_help
  split <;> rfl

theorem cmd_test_store (st : State) (store : Store) :
    (cmd_test st store).store = store := rfl

theorem upload_url_store (st : State) (store : Store) (payload : String) :
    (upload_url st store payload).store =
      match storeGet store st.user_id with
      | none => store
      | some user =>
          storeInsert store st.user_id
            { user with firefly_url := rustTrim payload, state := "upload-pat" } := by
  unfold upload_url
  cases storeGet store st.user_id <;> rfl

theorem upload_pat_store (st : State) (store : Store) (payload : String) :
    (upload_pat st store payload).store =
      match storeGet store st.user_id with
      | none => store
      | some user =>
          storeInsert store st.user_id
            { user with firefly_pat := rustTrim payload, state := "ready" } := by
  unfold upload_pat
  cases storeGet store st.user_id <;> rfl

/-- `transact` never writes to the store. -/
theorem transact_store (today : String) (st : State) (store : Store)
    (resp : WitMessageResponse) :
    (transact today st store resp).store = store := by
  unfold transact
  split
  · cases resp.entities.amount_of_money.get? 0 with
    | none => rfl
    | some amt =>
        cases resp.entities.origin.get? 0 with
        | none => rfl
        | some origin =>
            cases resp.entities.destination.get? 0 with
            | none => rfl
            | some dest =>
                cases resp.traits.flow.get? 0 with
                | none => rfl
                | some fl => rfl
  · rfl

theorem cmd_transact_store (today : String) (st : State) (store : Store)
    (payload : String) (resp : WitMessageResponse) :
    (cmd_transact today st store payload resp).store =
      match storeGet store st.user_id with
      | none => store
      | some user =>
          if user.is_ready then store
          else if user.state = "upload-url" then (upload_url st store payload).store
          else if user.state = "upload-pat" then (upload_pat st store payload).store
          else store := by
  unfold cmd_transact
  cases storeGet store st.user_id with
  | none => rfl
  | some user =>
      by_cases h : user.is_ready
      · simp [h, transact_store]
      · by_cases h1 : user.state = "upload-url"
        · simp [h, h1]
        · by_cases h2 : user.state = "upload-pat"
          · simp [h, h1, h2]
          · simp [h, h1, h2, ProcOut.abort]

/-- Unfolding `process_message` on a well-formed update (a message with a
text payload and a sender). -/
theorem process_message_cons (today : String) (store : Store)
    (upd_id mid mdate : Int) (t : String) (ch : Chat) (usr : User)
    (resp : WitMessageResponse) :
    process_message today store ⟨upd_id, some ⟨mid, mdate, some t, ch, some usr⟩⟩ resp =
      { dispatch today ⟨usr.id, ch.id⟩ store t resp with
        chatActions :=
          ch.id :: (dispatch today ⟨usr.id, ch.id⟩ store t resp).chatActions } := rfl

/-- On a non-command text, dispatch falls through to `cmd_transact`. -/
theorem dispatch_noncommand (today : String) (st : State) (store : Store)
    (t : String) (resp : WitMessageResponse)
    (h1 : t ≠ "/start") (h2 : t ≠ "/reset") (h3 : t ≠ "/help") (h4 : t ≠ "/test") :
    dispatch today st store t resp = cmd_transact today st store t resp := by
  simp [dispatch, h1, h2, h3, h4]

theorem cmd_transact_ready (today : String) (st : State) (store : Store)
    (t : String) (resp : WitMessageResponse) (user : UserClue)
    (hget : storeGet store st.user_id = some user)
    (hready : user.state = "ready") :
    cmd_transact today st store t resp = transact today st store resp := by
  simp [cmd_transact, hget, UserClue.is_ready, hready]

theorem cmd_transact_upload_url (today : String) (st : State) (store : Store)
    (t : String) (resp : WitMessageResponse) (user : UserClue)
    (hget : storeGet store st.user_id = some user)
    (hstate : user.state = "upload-url") :
    cmd_transact today st store t resp = upload_url st store t := by
  have hnr : user.is_ready = false := by
    simp [UserClue.is_ready, hstate]
  simp [cmd_transact, hget, hnr, hstate]

theorem cmd_transact_upload_pat (today : String) (st : State) (store : Store)
    (t : String) (resp : WitMessageResponse) (user : UserClue)
    (hget : storeGet store st.user_id = some user)
    (hstate : user.state = "upload-pat") :
    cmd_transact today st store t resp = upload_pat st store t := by
  have hnr : user.is_ready = false := by
    simp [UserClue.is_ready, hstate]
  simp [cmd_transact, hget, hnr, hstate]

theorem cmd_transact_unknown (today : String) (st : State) (store : Store)
    (t : String) (resp : WitMessageResponse) (user : UserClue)
    (hget : storeGet store st.user_id = some user)
    (hs1 : user.state ≠ "ready") (hs2 : user.state ≠ "upload-url")
    (hs3 : user.state ≠ "upload-pat") :
    cmd_transact today st store t resp = ProcOut.abort store "Unknown user state" := by
  have hnr : user.is_ready = false := by
    simp [UserClue.is_ready, hs1]
  simp [cmd_transact, hget, hnr, hs2, hs3]

theorem cmd_transact_no_record (today : String) (st : State) (store : Store)
    (t : String) (resp : WitMessageResponse)
    (hget : storeGet store st.user_id = none) :
    cmd_transact today st store t resp =
      ProcOut.replyOnly store st.chat_id "Type /start to initiate the setup process." := by
  simp [cmd_transact, hget]

/-! Claim theorems. -/

/-- C1 counterexample: the claim asserts the ready-record invariant
(non-empty URL and token) is preserved by every record-writing operation
for all input texts, including whitespace-only messages. Processing the
whitespace-only message "   " for a user in state "upload-pat" stores the
empty trimmed text as the access token and marks the record "ready",
yielding a ready record with an empty token. -/
theorem c1_ready_invariant_counterexample :
    storeReadyInv [("telegram-user-7", ⟨7, "upload-pat", "https://fire.example", ""⟩)] ∧
    (process_message "2024-01-01"
        [("telegram-user-7", ⟨7, "upload-pat", "https://fire.example", ""⟩)]
        ⟨1, some ⟨2, 1700000000, some "   ", ⟨9, "private", none, none, none⟩,
          some ⟨7, false, "A", none, none⟩⟩⟩
        ⟨"   ", [], ⟨[], [], [], none, none, none, none⟩, ⟨[]⟩⟩).store =
      [("telegram-user-7", ⟨7, "ready", "https://fire.example", ""⟩)] ∧
    ¬ storeReadyInv [("telegram-user-7", ⟨7, "ready", "https://fire.example", ""⟩)] := by
  refine ⟨?_, by decide, ?_⟩
  · intro p hp
    rw [List.mem_singleton] at hp
    subst hp
    intro hstate
    exact absurd hstate (by decide)
  · intro hinv
    have h := hinv _ (List.mem_singleton.mpr rfl) rfl
    exact h.2 rfl

/-- C1 (amended): creating a record on /start and storing the URL always
preserve the ready-record invariant, for every input text including
whitespace-only ones; storing the access token preserves it provided the
trimmed token text is non-empty and the stored record has a non-empty
URL. (As stated, the claim fails: a whitespace-only token message trims
to the empty string and still marks the record ready.) -/
theorem c1_ready_invariant_amended (st : State) (store : Store) (payload : String)
    (hs : storeReadyInv store) :
    storeReadyInv (cmd_start st store).store ∧
    storeReadyInv (upload_url st store payload).store ∧
    (rustTrim payload ≠ "" →
      (∀ u, storeGet store st.user_id = some u → u.firefly_url ≠ "") →
      storeReadyInv (upload_pat st store payload).store) := by
  refine ⟨?_, ?_, ?_⟩
  · rw [cmd_start_store]
    split
    · exact hs
    · exact storeReadyInv_insert hs (by simp [readyInv, UserClue.new])
  · rw [upload_url_store]
    cases hget : storeGet store st.user_id with
    | none => exact hs
    | some u => exact storeReadyInv_insert hs (by simp [readyInv])
  · intro htrim hurl
    rw [upload_pat_store]
    cases hget : storeGet store st.user_id with
    | none => exact hs
    | some u =>
        refine storeReadyInv_insert hs ?_
        intro _
        exact ⟨hurl u hget, htrim⟩

/-- C1 witness: the unconditional conjuncts at the store as /start leaves
it (empty URL, empty token) with a whitespace-only URL payload, and the
token conjunct at a store with a non-empty URL and a non-whitespace
token. -/
theorem c1_ready_invariant_witness :
    (storeReadyInv ([("telegram-user-7", ⟨7, "upload-url", "", ""⟩)] : Store) ∧
     storeReadyInv (cmd_start ⟨7, 9⟩
       [("telegram-user-7", ⟨7, "upload-url", "", ""⟩)]).store ∧
     storeReadyInv (upload_url ⟨7, 9⟩
       [("telegram-user-7", ⟨7, "upload-url", "", ""⟩)] "   ").store) ∧
    (rustTrim "tok" ≠ "" ∧
     storeReadyInv (upload_pat ⟨7, 9⟩
       [("telegram-user-7", ⟨7, "upload-pat", "https://fire.example", "x"⟩)] "tok").store) := by
  have hsA : storeReadyInv
      ([("telegram-user-7", ⟨7, "upload-url", "", ""⟩)] : Store) := by
    intro p hp
    rw [List.mem_singleton] at hp
    subst hp
    intro hstate
    exact absurd hstate (by decide)
  have hsB : storeReadyInv
      ([("telegram-user-7", ⟨7, "upload-pat", "https://fire.example", "x"⟩)] : Store) := by
    intro p hp
    rw [List.mem_singleton] at hp
    subst hp
    intro hstate
    exact absurd hstate (by decide)
  have hurl : ∀ u, storeGet
      [("telegram-user-7", (⟨7, "upload-pat", "https://fire.example", "x"⟩ : UserClue))]
      (State.user_id ⟨7, 9⟩) = some u → u.firefly_url ≠ "" := by
    intro u hu
    have hu2 : (some u : Option UserClue) =
        some ⟨7, "upload-pat", "https://fire.example", "x"⟩ := by
      rw [← hu]
      decide
    rw [Option.some.injEq] at hu2
    subst hu2
    decide
  have hA := c1_ready_invariant_amended ⟨7, 9⟩
    [("telegram-user-7", ⟨7, "upload-url", "", ""⟩)] "   " hsA
  have hB := c1_ready_invariant_amended ⟨7, 9⟩
    [("telegram-user-7", ⟨7, "upload-pat", "https://fire.example", "x"⟩)] "tok" hsB
  exact ⟨⟨hsA, hA.1, hA.2.1⟩, by decide, hB.2.2 (by decide) hurl⟩

/-- C2 counterexample: the claim asserts that a Ready user whose NLU
response has an intent but a missing required entity gets a guidance chat
reply and the error is not propagated. In the code these cases return
`Err(...)`: processing this message sends no reply and propagates the
error to the caller. -/
theorem c2_missing_entity_counterexample :
    process_message "2024-01-01"
        [("telegram-user-7", ⟨7, "ready", "https://fire.example", "tok"⟩)]
        ⟨1, some ⟨2, 1700000000, some "coffee 5", ⟨9, "private", none, none, none⟩,
          some ⟨7, false, "A", none, none⟩⟩⟩
        ⟨"coffee 5", [⟨"transact"⟩], ⟨[], [], [], none, none, none, none⟩, ⟨[]⟩⟩ =
      { store := [("telegram-user-7", ⟨7, "ready", "https://fire.example", "tok"⟩)],
        chatActions := [9], replies := [], ledgerCalls := [],
        err := some "The amount of money is empty." } := by decide

/-- C2 (amended): for every Ready user whose NLU response has at least one
intent but a missing amount-of-money, origin, destination, or flow entity,
processing leaves the stored record unchanged, sends no reply, makes no
ledger call, and propagates a descriptive error to the caller (these are
treated as errors, not recovered with a guidance reply). -/
theorem c2_missing_entity_amended (today : String) (st : State) (store : Store)
    (t : String) (resp : WitMessageResponse) (user : UserClue)
    (hget : storeGet store st.user_id = some user)
    (hready : user.state = "ready")
    (hint : resp.intents ≠ [])
    (hmiss : resp.entities.amount_of_money = [] ∨ resp.entities.origin = [] ∨
             resp.entities.destination = [] ∨ resp.traits.flow = []) :
    (cmd_transact today st store t resp).err.isSome = true ∧
    (cmd_transact today st store t resp).store = store ∧
    (cmd_transact today st store t resp).replies = [] ∧
    (cmd_transact today st store t resp).ledgerCalls = [] := by
  rw [cmd_transact_ready today st store t resp user hget hready]
  have hlen : 0 < resp.intents.length := List.length_pos.mpr hint
  unfold transact
  rw [if_pos hlen]
  cases ham : resp.entities.amount_of_money.get? 0 with
  | none => exact ⟨rfl, rfl, rfl, rfl⟩
  | some a =>
      cases ho : resp.entities.origin.get? 0 with
      | none => exact ⟨rfl, rfl, rfl, rfl⟩
      | some o =>
          cases hdst : resp.entities.destination.get? 0 with
          | none => exact ⟨rfl, rfl, rfl, rfl⟩
          | some d =>
              cases hf : resp.traits.flow.get? 0 with
              | none => exact ⟨rfl, rfl, rfl, rfl⟩
              | some f =>
                  exfalso
                  rcases hmiss with h | h | h | h
                  · rw [h] at ham; cases ham
                  · rw [h] at ho; cases ho
                  · rw [h] at hdst; cases hdst
                  · rw [h] at hf; cases hf

/-- C2 witness: the amended behaviour at a concrete Ready store and a
concrete one-intent response with no amount-of-money entity. -/
theorem c2_missing_entity_witness :
    (cmd_transact "2024-01-01" ⟨7, 9⟩
        [("telegram-user-7", ⟨7, "ready", "https://fire.example", "tok"⟩)]
        "coffee 5"
        ⟨"coffee 5", [⟨"transact"⟩], ⟨[], [], [], none, none, none, none⟩, ⟨[]⟩⟩).err.isSome = true ∧
    (cmd_transact "2024-01-01" ⟨7, 9⟩
        [("telegram-user-7", ⟨7, "ready", "https://fire.example", "tok"⟩)]
        "coffee 5"
        ⟨"coffee 5", [⟨"transact"⟩], ⟨[], [], [], none, none, none, none⟩, ⟨[]⟩⟩).store =
      [("telegram-user-7", ⟨7, "ready", "https://fire.example", "tok"⟩)] ∧
    (cmd_transact "2024-01-01" ⟨7, 9⟩
        [("telegram-user-7", ⟨7, "ready", "https://fire.example", "tok"⟩)]
        "coffee 5"
        ⟨"coffee 5", [⟨"transact"⟩], ⟨[], [], [], none, none, none, none⟩, ⟨[]⟩⟩).replies = [] ∧
    (cmd_transact "2024-01-01" ⟨7, 9⟩
        [("telegram-user-7", ⟨7, "ready", "https://fire.example", "tok"⟩)]
        "coffee 5"
        ⟨"coffee 5", [⟨"transact"⟩], ⟨[], [], [], none, none, none, none⟩, ⟨[]⟩⟩).ledgerCalls = [] :=
  c2_missing_entity_amended "2024-01-01" ⟨7, 9⟩
    [("telegram-user-7", ⟨7, "ready", "https://fire.example", "tok"⟩)]
    "coffee 5"
    ⟨"coffee 5", [⟨"transact"⟩], ⟨[], [], [], none, none, none, none⟩, ⟨[]⟩⟩
    ⟨7, "ready", "https://fire.example", "tok"⟩
    (by decide) rfl (by decide) (Or.inl rfl)

/-- C3: for every Ready user sending a non-command text: with zero intents
in the NLU response, processing sends exactly the one guidance reply,
makes no ledger call, and leaves the store unchanged; with at least one
intent and all required entities present, it makes exactly one
ledger-create call and sends exactly the one confirmation reply. -/
theorem c3_ready_reply_and_ledger_counts (today : String) (store : Store)
    (upd_id mid mdate : Int) (t : String) (ch : Chat) (usr : User)
    (resp : WitMessageResponse) (user : UserClue)
    (h1 : t ≠ "/start") (h2 : t ≠ "/reset") (h3 : t ≠ "/help") (h4 : t ≠ "/test")
    (hget : storeGet store ("telegram-user-" ++ toString usr.id) = some user)
    (hready : user.state = "ready") :
    (resp.intents = [] →
      (process_message today store ⟨upd_id, some ⟨mid, mdate, some t, ch, some usr⟩⟩ resp).replies =
        [⟨ch.id, "Type /help to check the proper way of creating a transaction."⟩] ∧
      (process_message today store ⟨upd_id, some ⟨mid, mdate, some t, ch, some usr⟩⟩ resp).ledgerCalls = [] ∧
      (process_message today store ⟨upd_id, some ⟨mid, mdate, some t, ch, some usr⟩⟩ resp).err = none ∧
      (process_message today store ⟨upd_id, some ⟨mid, mdate, some t, ch, some usr⟩⟩ resp).store = store) ∧
    (∀ a o d f, resp.intents ≠ [] →
      resp.entities.amount_of_money.get? 0 = some a →
      resp.entities.origin.get? 0 = some o →
      resp.entities.destination.get? 0 = some d →
      resp.traits.flow.get? 0 = some f →
      (process_message today store ⟨upd_id, some ⟨mid, mdate, some t, ch, some usr⟩⟩ resp).ledgerCalls.length = 1 ∧
      (process_message today store ⟨upd_id, some ⟨mid, mdate, some t, ch, some usr⟩⟩ resp).replies =
        [⟨ch.id, "Transaction created."⟩] ∧
      (process_message today store ⟨upd_id, some ⟨mid, mdate, some t, ch, some usr⟩⟩ resp).err = none ∧
      (process_message today store ⟨upd_id, some ⟨mid, mdate, some t, ch, some usr⟩⟩ resp).store = store) := by
  have hkey : State.user_id ⟨usr.id, ch.id⟩ = "telegram-user-" ++ toString usr.id := rfl
  rw [process_message_cons,
    dispatch_noncommand today ⟨usr.id, ch.id⟩ store t resp h1 h2 h3 h4,
    cmd_transact_ready today ⟨usr.id, ch.id⟩ store t resp user (hkey ▸ hget) hready]
  constructor
  · intro hint
    simp [transact, hint, ProcOut.replyOnly]
  · intro a o d f hint ham ho hdst hf
    have hlen : 0 < resp.intents.length := List.length_pos.mpr hint
    rw [List.get?_eq_getElem?] at ham ho hdst hf
    simp [transact, hlen, ham, ho, hdst, hf]

/-- C3 witness: the two count statements at a concrete Ready store, once
with a zero-intent response and once with a fully populated response. -/
theorem c3_ready_reply_and_ledger_counts_witness :
    ((process_message "2024-01-01"
        [("telegram-user-7", ⟨7, "ready", "https://fire.example", "tok"⟩)]
        ⟨1, some ⟨2, 1700000000, some "gibberish", ⟨9, "private", none, none, none⟩,
          some ⟨7, false, "A", none, none⟩⟩⟩
        ⟨"gibberish", [], ⟨[], [], [], none, none, none, none⟩, ⟨[]⟩⟩).replies =
      [⟨9, "Type /help to check the proper way of creating a transaction."⟩] ∧
     (process_message "2024-01-01"
        [("telegram-user-7", ⟨7, "ready", "https://fire.example", "tok"⟩)]
        ⟨1, some ⟨2, 1700000000, some "gibberish", ⟨9, "private", none, none, none⟩,
          some ⟨7, false, "A", none, none⟩⟩⟩
        ⟨"gibberish", [], ⟨[], [], [], none, none, none, none⟩, ⟨[]⟩⟩).ledgerCalls = [] ∧
     (process_message "2024-01-01"
        [("telegram-user-7", ⟨7, "ready", "https://fire.example", "tok"⟩)]
        ⟨1, some ⟨2, 1700000000, some "gibberish", ⟨9, "private", none, none, none⟩,
          some ⟨7, false, "A", none, none⟩⟩⟩
        ⟨"gibberish", [], ⟨[], [], [], none, none, none, none⟩, ⟨[]⟩⟩).err = none ∧
     (process_message "2024-01-01"
        [("telegram-user-7", ⟨7, "ready", "https://fire.example", "tok"⟩)]
        ⟨1, some ⟨2, 1700000000, some "gibberish", ⟨9, "private", none, none, none⟩,
          some ⟨7, false, "A", none, none⟩⟩⟩
        ⟨"gibberish", [], ⟨[], [], [], none, none, none, none⟩, ⟨[]⟩⟩).store =
      [("telegram-user-7", ⟨7, "ready", "https://fire.example", "tok"⟩)]) ∧
    ((process_message "2024-01-01"
        [("telegram-user-7", ⟨7, "ready", "https://fire.example", "tok"⟩)]
        ⟨1, some ⟨2, 1700000000, some "coffee 12.5", ⟨9, "private", none, none, none⟩,
          some ⟨7, false, "A", none, none⟩⟩⟩
        ⟨"coffee 12.5", [⟨"transact"⟩],
          ⟨[⟨"destination", "Cafe"⟩], [⟨"origin", "Checking"⟩],
           [⟨"amount_of_money", "PHP", "12.5"⟩], none, none, none, none⟩,
          ⟨[⟨"withdrawal"⟩]⟩⟩).ledgerCalls.length = 1 ∧
     (process_message "2024-01-01"
        [("telegram-user-7", ⟨7, "ready", "https://fire.example", "tok"⟩)]
        ⟨1, some ⟨2, 1700000000, some "coffee 12.5", ⟨9, "private", none, none, none⟩,
          some ⟨7, false, "A", none, none⟩⟩⟩
        ⟨"coffee 12.5", [⟨"transact"⟩],
          ⟨[⟨"destination", "Cafe"⟩], [⟨"origin", "Checking"⟩],
           [⟨"amount_of_money", "PHP", "12.5"⟩], none, none, none, none⟩,
          ⟨[⟨"withdrawal"⟩]⟩⟩).replies = [⟨9, "Transaction created."⟩] ∧
     (process_message "2024-01-01"
        [("telegram-user-7", ⟨7, "ready", "https://fire.example", "tok"⟩)]
        ⟨1, some ⟨2, 1700000000, some "coffee 12.5", ⟨9, "private", none, none, none⟩,
          some ⟨7, false, "A", none, none⟩⟩⟩
        ⟨"coffee 12.5", [⟨"transact"⟩],
          ⟨[⟨"destination", "Cafe"⟩], [⟨"origin", "Checking"⟩],
           [⟨"amount_of_money", "PHP", "12.5"⟩], none, none, none, none⟩,
          ⟨[⟨"withdrawal"⟩]⟩⟩).err = none ∧
     (process_message "2024-01-01"
        [("telegram-user-7", ⟨7, "ready", "https://fire.example", "tok"⟩)]
        ⟨1, some ⟨2, 1700000000, some "coffee 12.5", ⟨9, "private", none, none, none⟩,
          some ⟨7, false, "A", none, none⟩⟩⟩
        ⟨"coffee 12.5", [⟨"transact"⟩],
          ⟨[⟨"destination", "Cafe"⟩], [⟨"origin", "Checking"⟩],
           [⟨"amount_of_money", "PHP", "12.5"⟩], none, none, none, none⟩,
          ⟨[⟨"withdrawal"⟩]⟩⟩).store =
      [("telegram-user-7", ⟨7, "ready", "https://fire.example", "tok"⟩)]) :=
  ⟨(c3_ready_reply_and_ledger_counts "2024-01-01"
      [("telegram-user-7", ⟨7, "ready", "https://fire.example", "tok"⟩)]
      1 2 1700000000 "gibberish" ⟨9, "private", none, none, none⟩
      ⟨7, false, "A", none, none⟩
      ⟨"gibberish", [], ⟨[], [], [], none, none, none, none⟩, ⟨[]⟩⟩
      ⟨7, "ready", "https://fire.example", "tok"⟩
      (by decide) (by decide) (by decide) (by decide) (by decide) rfl).1 rfl,
   (c3_ready_reply_and_ledger_counts "2024-01-01"
      [("telegram-user-7", ⟨7, "ready", "https://fire.example", "tok"⟩)]
      1 2 1700000000 "coffee 12.5" ⟨9, "private", none, none, none⟩
      ⟨7, false, "A", none, none⟩
      ⟨"coffee 12.5", [⟨"transact"⟩],
        ⟨[⟨"destination", "Cafe"⟩], [⟨"origin", "Checking"⟩],
         [⟨"amount_of_money", "PHP", "12.5"⟩], none, none, none, none⟩,
        ⟨[⟨"withdrawal"⟩]⟩⟩
      ⟨7, "ready", "https://fire.example", "tok"⟩
      (by decide) (by decide) (by decide) (by decide) (by decide) rfl).2
     ⟨"amount_of_money", "PHP", "12.5"⟩ ⟨"origin", "Checking"⟩
     ⟨"destination", "Cafe"⟩ ⟨"withdrawal"⟩
     (by decide) rfl rfl rfl rfl⟩

/-- C4: for a Ready user and a response with at least one intent and all
required entities, the dispatched transaction is built from the first
occurrence of each entity (first amount, first origin, first destination,
first flow trait), the description is the first deed entity value with the
response text as fallback, and the date is the processing date `today`,
independent of the message send date `mdate`. -/
theorem c4_first_entity_transaction (today : String) (store : Store)
    (upd_id mid mdate : Int) (t : String) (ch : Chat) (usr : User)
    (resp : WitMessageResponse) (user : UserClue)
    (a : WitAmountOfMoney) (arest : List WitAmountOfMoney)
    (o : AccountEntity) (orest : List AccountEntity)
    (d : AccountEntity) (drest : List AccountEntity)
    (f : Flow) (frest : List Flow)
    (h1 : t ≠ "/start") (h2 : t ≠ "/reset") (h3 : t ≠ "/help") (h4 : t ≠ "/test")
    (hget : storeGet store ("telegram-user-" ++ toString usr.id) = some user)
    (hready : user.state = "ready")
    (hint : resp.intents ≠ [])
    (ham : resp.entities.amount_of_money = a :: arest)
    (ho : resp.entities.origin = o :: orest)
    (hdst : resp.entities.destination = d :: drest)
    (hf : resp.traits.flow = f :: frest) :
    (process_message today store ⟨upd_id, some ⟨mid, mdate, some t, ch, some usr⟩⟩ resp).ledgerCalls =
      [{ transact_type := f.value,
         description :=
           match resp.entities.deed with
           | some (d0 :: _) => d0.value
           | _ => resp.text,
         date := today, amount := a.value, source_name := o.value,
         destination_name := d.value }] := by
  have hkey : State.user_id ⟨usr.id, ch.id⟩ = "telegram-user-" ++ toString usr.id := rfl
  rw [process_message_cons,
    dispatch_noncommand today ⟨usr.id, ch.id⟩ store t resp h1 h2 h3 h4,
    cmd_transact_ready today ⟨usr.id, ch.id⟩ store t resp user (hkey ▸ hget) hready]
  have hlen : 0 < resp.intents.length := List.length_pos.mpr hint
  cases hdeed : resp.entities.deed with
  | none => simp [transact, hlen, ham, ho, hdst, hf, hdeed]
  | some l =>
      cases l with
      | nil => simp [transact, hlen, ham, ho, hdst, hf, hdeed]
      | cons d0 ds => simp [transact, hlen, ham, ho, hdst, hf, hdeed]

/-- C4 witness: the dispatched transaction at a concrete Ready store and a
concrete response with a second (ignored) occurrence of each entity and no
deed entity, with processing date distinct from the message send date. -/
theorem c4_first_entity_transaction_witness :
    (process_message "2024-01-01"
        [("telegram-user-7", ⟨7, "ready", "https://fire.example", "tok"⟩)]
        ⟨1, some ⟨2, 1700000000, some "coffee 12.5", ⟨9, "private", none, none, none⟩,
          some ⟨7, false, "A", none, none⟩⟩⟩
        ⟨"coffee 12.5", [⟨"transact"⟩],
          ⟨[⟨"destination", "Cafe"⟩, ⟨"destination", "Later"⟩],
           [⟨"origin", "Checking"⟩, ⟨"origin", "Savings"⟩],
           [⟨"amount_of_money", "PHP", "12.5"⟩, ⟨"amount_of_money", "PHP", "99"⟩],
           none, none, none, none⟩,
          ⟨[⟨"withdrawal"⟩, ⟨"deposit"⟩]⟩⟩).ledgerCalls =
      [{ transact_type := "withdrawal", description := "coffee 12.5",
         date := "2024-01-01", amount := "12.5", source_name := "Checking",
         destination_name := "Cafe" }] :=
  c4_first_entity_transaction "2024-01-01"
    [("telegram-user-7", ⟨7, "ready", "https://fire.example", "tok"⟩)]
    1 2 1700000000 "coffee 12.5" ⟨9, "private", none, none, none⟩
    ⟨7, false, "A", none, none⟩
    ⟨"coffee 12.5", [⟨"transact"⟩],
      ⟨[⟨"destination", "Cafe"⟩, ⟨"destination", "Later"⟩],
       [⟨"origin", "Checking"⟩, ⟨"origin", "Savings"⟩],
       [⟨"amount_of_money", "PHP", "12.5"⟩, ⟨"amount_of_money", "PHP", "99"⟩],
       none, none, none, none⟩,
      ⟨[⟨"withdrawal"⟩, ⟨"deposit"⟩]⟩⟩
    ⟨7, "ready", "https://fire.example", "tok"⟩
    ⟨"amount_of_money", "PHP", "12.5"⟩ [⟨"amount_of_money", "PHP", "99"⟩]
    ⟨"origin", "Checking"⟩ [⟨"origin", "Savings"⟩]
    ⟨"destination", "Cafe"⟩ [⟨"destination", "Later"⟩]
    ⟨"withdrawal"⟩ [⟨"deposit"⟩]
    (by decide) (by decide) (by decide) (by decide) (by decide) rfl
    (by decide) rfl rfl rfl rfl

/-- C5: for a user in state "upload-url" and any non-command text,
processing stores the trimmed text as the ledger URL (overwriting any
prior value), sets the state to "upload-pat", and prompts for the access
token. -/
theorem c5_upload_url_overwrites (today : String) (store : Store)
    (upd_id mid mdate : Int) (t : String) (ch : Chat) (usr : User)
    (resp : WitMessageResponse) (user : UserClue)
    (h1 : t ≠ "/start") (h2 : t ≠ "/reset") (h3 : t ≠ "/help") (h4 : t ≠ "/test")
    (hget : storeGet store ("telegram-user-" ++ toString usr.id) = some user)
    (hstate : user.state = "upload-url") :
    (process_message today store ⟨upd_id, some ⟨mid, mdate, some t, ch, some usr⟩⟩ resp).store =
      storeInsert store ("telegram-user-" ++ toString usr.id)
        { user with firefly_url := rustTrim t, state := "upload-pat" } ∧
    (process_message today store ⟨upd_id, some ⟨mid, mdate, some t, ch, some usr⟩⟩ resp).replies =
      [⟨ch.id, "Your *Firefly III* URL\x27s been saved!\n\nNow please enter your firefly *Personal Access Token* (PAT), you can generate it from PAT section here - "
          ++ rustTrim t ++ "/profile"⟩] ∧
    (process_message today store ⟨upd_id, some ⟨mid, mdate, some t, ch, some usr⟩⟩ resp).err = none ∧
    (process_message today store ⟨upd_id, some ⟨mid, mdate, some t, ch, some usr⟩⟩ resp).ledgerCalls = [] := by
  have hkey : State.user_id ⟨usr.id, ch.id⟩ = "telegram-user-" ++ toString usr.id := rfl
  rw [process_message_cons,
    dispatch_noncommand today ⟨usr.id, ch.id⟩ store t resp h1 h2 h3 h4,
    cmd_transact_upload_url today ⟨usr.id, ch.id⟩ store t resp user (hkey ▸ hget) hstate]
  simp [upload_url, hget, ProcOut.replyOnly, hkey]

set_option maxRecDepth 8000 in
/-- C5 witness: a user in state "upload-url" with a previously stored URL
sends a URL with surrounding whitespace; the trimmed text overwrites the
old URL and the state advances. -/
theorem c5_upload_url_overwrites_witness :
    (process_message "2024-01-01"
        [("telegram-user-7", ⟨7, "upload-url", "https://old.example", ""⟩)]
        ⟨1, some ⟨2, 1700000000, some " https://new.example ", ⟨9, "private", none, none, none⟩,
          some ⟨7, false, "A", none, none⟩⟩⟩
        ⟨" https://new.example ", [], ⟨[], [], [], none, none, none, none⟩, ⟨[]⟩⟩).store =
      storeInsert [("telegram-user-7", ⟨7, "upload-url", "https://old.example", ""⟩)]
        "telegram-user-7" ⟨7, "upload-pat", "https://new.example", ""⟩ ∧
    (process_message "2024-01-01"
        [("telegram-user-7", ⟨7, "upload-url", "https://old.example", ""⟩)]
        ⟨1, some ⟨2, 1700000000, some " https://new.example ", ⟨9, "private", none, none, none⟩,
          some ⟨7, false, "A", none, none⟩⟩⟩
        ⟨" https://new.example ", [], ⟨[], [], [], none, none, none, none⟩, ⟨[]⟩⟩).replies =
      [⟨9, "Your *Firefly III* URL\x27s been saved!\n\nNow please enter your firefly *Personal Access Token* (PAT), you can generate it from PAT section here - https://new.example/profile"⟩] ∧
    (process_message "2024-01-01"
        [("telegram-user-7", ⟨7, "upload-url", "https://old.example", ""⟩)]
        ⟨1, some ⟨2, 1700000000, some " https://new.example ", ⟨9, "private", none, none, none⟩,
          some ⟨7, false, "A", none, none⟩⟩⟩
        ⟨" https://new.example ", [], ⟨[], [], [], none, none, none, none⟩, ⟨[]⟩⟩).err = none ∧
    (process_message "2024-01-01"
        [("telegram-user-7", ⟨7, "upload-url", "https://old.example", ""⟩)]
        ⟨1, some ⟨2, 1700000000, some " https://new.example ", ⟨9, "private", none, none, none⟩,
          some ⟨7, false, "A", none, none⟩⟩⟩
        ⟨" https://new.example ", [], ⟨[], [], [], none, none, none, none⟩, ⟨[]⟩⟩).ledgerCalls = [] := by
  have h := c5_upload_url_overwrites "2024-01-01"
    [("telegram-user-7", ⟨7, "upload-url", "https://old.example", ""⟩)]
    1 2 1700000000 " https://new.example " ⟨9, "private", none, none, none⟩
    ⟨7, false, "A", none, none⟩
    ⟨" https://new.example ", [], ⟨[], [], [], none, none, none, none⟩, ⟨[]⟩⟩
    ⟨7, "upload-url", "https://old.example", ""⟩
    (by decide) (by decide) (by decide) (by decide) (by decide) rfl
  refine ⟨?_, ?_, h.2.2.1, h.2.2.2⟩
  · rw [h.1]; decide
  · rw [h.2.1]; decide

/-- C6: on /start with no existing record, a record with state
"upload-url" and empty URL and token is created and the ledger-URL prompt
is sent; with an existing record, the store is left completely unchanged
and only the "already started" reply is sent. -/
theorem c6_start_create_or_unchanged (today : String) (store : Store)
    (upd_id mid mdate : Int) (ch : Chat) (usr : User)
    (resp : WitMessageResponse) :
    (storeGet store ("telegram-user-" ++ toString usr.id) = none →
      (process_message today store ⟨upd_id, some ⟨mid, mdate, some "/start", ch, some usr⟩⟩ resp).store =
        storeInsert store ("telegram-user-" ++ toString usr.id) ⟨usr.id, "upload-url", "", ""⟩ ∧
      (process_message today store ⟨upd_id, some ⟨mid, mdate, some "/start", ch, some usr⟩⟩ resp).replies =
        [⟨ch.id, "Please enter your *Firefly III* server\x27s URL (e.g. https://my-firefly-iii.com).\n\nIt must start with HTTP/s protocol scheme."⟩] ∧
      (process_message today store ⟨upd_id, some ⟨mid, mdate, some "/start", ch, some usr⟩⟩ resp).err = none) ∧
    (∀ u0, storeGet store ("telegram-user-" ++ toString usr.id) = some u0 →
      (process_message today store ⟨upd_id, some ⟨mid, mdate, some "/start", ch, some usr⟩⟩ resp).store = store ∧
      (process_message today store ⟨upd_id, some ⟨mid, mdate, some "/start", ch, some usr⟩⟩ resp).replies =
        [⟨ch.id, "Type /reset to reset your account."⟩] ∧
      (process_message today store ⟨upd_id, some ⟨mid, mdate, some "/start", ch, some usr⟩⟩ resp).err = none) := by
  have hkey : State.user_id ⟨usr.id, ch.id⟩ = "telegram-user-" ++ toString usr.id := rfl
  have hdisp : dispatch today ⟨usr.id, ch.id⟩ store "/start" resp =
      cmd_start ⟨usr.id, ch.id⟩ store := by
    simp [dispatch]
  rw [process_message_cons, hdisp]
  constructor
  · intro hget
    simp [cmd_start, storeContains, hget, UserClue.new, ProcOut.replyOnly, hkey]
  · intro u0 hget
    simp [cmd_start, storeContains, hget, ProcOut.replyOnly, hkey]

/-- C6 witness: /start once on an empty store creates the fresh record;
/start again on the resulting store leaves it unchanged. -/
theorem c6_start_create_or_unchanged_witness :
    ((process_message "2024-01-01" []
        ⟨1, some ⟨2, 1700000000, some "/start", ⟨9, "private", none, none, none⟩,
          some ⟨7, false, "A", none, none⟩⟩⟩
        ⟨"/start", [], ⟨[], [], [], none, none, none, none⟩, ⟨[]⟩⟩).store =
      storeInsert [] "telegram-user-7" ⟨7, "upload-url", "", ""⟩ ∧
     (process_message "2024-01-01" []
        ⟨1, some ⟨2, 1700000000, some "/start", ⟨9, "private", none, none, none⟩,
          some ⟨7, false, "A", none, none⟩⟩⟩
        ⟨"/start", [], ⟨[], [], [], none, none, none, none⟩, ⟨[]⟩⟩).replies =
      [⟨9, "Please enter your *Firefly III* server\x27s URL (e.g. https://my-firefly-iii.com).\n\nIt must start with HTTP/s protocol scheme."⟩] ∧
     (process_message "2024-01-01" []
        ⟨1, some ⟨2, 1700000000, some "/start", ⟨9, "private", none, none, none⟩,
          some ⟨7, false, "A", none, none⟩⟩⟩
        ⟨"/start", [], ⟨[], [], [], none, none, none, none⟩, ⟨[]⟩⟩).err = none) ∧
    ((process_message "2024-01-01" [("telegram-user-7", ⟨7, "upload-url", "", ""⟩)]
        ⟨1, some ⟨2, 1700000000, some "/start", ⟨9, "private", none, none, none⟩,
          some ⟨7, false, "A", none, none⟩⟩⟩
        ⟨"/start", [], ⟨[], [], [], none, none, none, none⟩, ⟨[]⟩⟩).store =
      [("telegram-user-7", ⟨7, "upload-url", "", ""⟩)] ∧
     (process_message "2024-01-01" [("telegram-user-7", ⟨7, "upload-url", "", ""⟩)]
        ⟨1, some ⟨2, 1700000000, some "/start", ⟨9, "private", none, none, none⟩,
          some ⟨7, false, "A", none, none⟩⟩⟩
        ⟨"/start", [], ⟨[], [], [], none, none, none, none⟩, ⟨[]⟩⟩).replies =
      [⟨9, "Type /reset to reset your account."⟩] ∧
     (process_message "2024-01-01" [("telegram-user-7", ⟨7, "upload-url", "", ""⟩)]
        ⟨1, some ⟨2, 1700000000, some "/start", ⟨9, "private", none, none, none⟩,
          some ⟨7, false, "A", none, none⟩⟩⟩
        ⟨"/start", [], ⟨[], [], [], none, none, none, none⟩, ⟨[]⟩⟩).err = none) :=
  ⟨(c6_start_create_or_unchanged "2024-01-01" [] 1 2 1700000000
      ⟨9, "private", none, none, none⟩ ⟨7, false, "A", none, none⟩
      ⟨"/start", [], ⟨[], [], [], none, none, none, none⟩, ⟨[]⟩⟩).1 rfl,
   (c6_start_create_or_unchanged "2024-01-01"
      [("telegram-user-7", ⟨7, "upload-url", "", ""⟩)] 1 2 1700000000
      ⟨9, "private", none, none, none⟩ ⟨7, false, "A", none, none⟩
      ⟨"/start", [], ⟨[], [], [], none, none, none, none⟩, ⟨[]⟩⟩).2
     ⟨7, "upload-url", "", ""⟩ (by decide)⟩

/-- C7: a user with no stored record sending any non-command text gets the
"type /start" prompt reply and the processing performs no store write at
all: the result is exactly the unchanged store, one typing action, that
one reply, no ledger call, and no error. -/
theorem c7_no_record_prompt (today : String) (store : Store)
    (upd_id mid mdate : Int) (t : String) (ch : Chat) (usr : User)
    (resp : WitMessageResponse)
    (h1 : t ≠ "/start") (h2 : t ≠ "/reset") (h3 : t ≠ "/help") (h4 : t ≠ "/test")
    (hget : storeGet store ("telegram-user-" ++ toString usr.id) = none) :
    process_message today store ⟨upd_id, some ⟨mid, mdate, some t, ch, some usr⟩⟩ resp =
      { store := store, chatActions := [ch.id],
        replies := [⟨ch.id, "Type /start to initiate the setup process."⟩],
        ledgerCalls := [], err := none } := by
  have hkey : State.user_id ⟨usr.id, ch.id⟩ = "telegram-user-" ++ toString usr.id := rfl
  rw [process_message_cons,
    dispatch_noncommand today ⟨usr.id, ch.id⟩ store t resp h1 h2 h3 h4,
    cmd_transact_no_record today ⟨usr.id, ch.id⟩ store t resp (hkey ▸ hget)]
  rfl

/-- C7 witness: the prompt-and-no-write behaviour on a concrete empty
store. -/
theorem c7_no_record_prompt_witness :
    process_message "2024-01-01" []
        ⟨1, some ⟨2, 1700000000, some "coffee 5", ⟨9, "private", none, none, none⟩,
          some ⟨7, false, "A", none, none⟩⟩⟩
        ⟨"coffee 5", [], ⟨[], [], [], none, none, none, none⟩, ⟨[]⟩⟩ =
      { store := [], chatActions := [9],
        replies := [⟨9, "Type /start to initiate the setup process."⟩],
        ledgerCalls := [], err := none } :=
  c7_no_record_prompt "2024-01-01" [] 1 2 1700000000 "coffee 5"
    ⟨9, "private", none, none, none⟩ ⟨7, false, "A", none, none⟩
    ⟨"coffee 5", [], ⟨[], [], [], none, none, none, none⟩, ⟨[]⟩⟩
    (by decide) (by decide) (by decide) (by decide) rfl

/-- C8: a stored record whose state is none of "ready", "upload-url",
"upload-pat" makes processing of a non-command message abort with the
"Unknown user state" error: no store write, no reply, no ledger call. -/
theorem c8_unknown_state_aborts (today : String) (store : Store)
    (upd_id mid mdate : Int) (t : String) (ch : Chat) (usr : User)
    (resp : WitMessageResponse) (user : UserClue)
    (h1 : t ≠ "/start") (h2 : t ≠ "/reset") (h3 : t ≠ "/help") (h4 : t ≠ "/test")
    (hget : storeGet store ("telegram-user-" ++ toString usr.id) = some user)
    (hs1 : user.state ≠ "ready") (hs2 : user.state ≠ "upload-url")
    (hs3 : user.state ≠ "upload-pat") :
    process_message today store ⟨upd_id, some ⟨mid, mdate, some t, ch, some usr⟩⟩ resp =
      { store := store, chatActions := [ch.id], replies := [],
        ledgerCalls := [], err := some "Unknown user state" } := by
  have hkey : State.user_id ⟨usr.id, ch.id⟩ = "telegram-user-" ++ toString usr.id := rfl
  rw [process_message_cons,
    dispatch_noncommand today ⟨usr.id, ch.id⟩ store t resp h1 h2 h3 h4,
    cmd_transact_unknown today ⟨usr.id, ch.id⟩ store t resp user (hkey ▸ hget) hs1 hs2 hs3]
  rfl

/-- C8 witness: the abort on a concrete record with the unrecognized state
"bogus". -/
theorem c8_unknown_state_aborts_witness :
    process_message "2024-01-01" [("telegram-user-7", ⟨7, "bogus", "u", "p"⟩)]
        ⟨1, some ⟨2, 1700000000, some "coffee 5", ⟨9, "private", none, none, none⟩,
          some ⟨7, false, "A", none, none⟩⟩⟩
        ⟨"coffee 5", [], ⟨[], [], [], none, none, none, none⟩, ⟨[]⟩⟩ =
      { store := [("telegram-user-7", ⟨7, "bogus", "u", "p"⟩)], chatActions := [9],
        replies := [], ledgerCalls := [], err := some "Unknown user state" } :=
  c8_unknown_state_aborts "2024-01-01" [("telegram-user-7", ⟨7, "bogus", "u", "p"⟩)]
    1 2 1700000000 "coffee 5" ⟨9, "private", none, none, none⟩
    ⟨7, false, "A", none, none⟩
    ⟨"coffee 5", [], ⟨[], [], [], none, none, none, none⟩, ⟨[]⟩⟩
    ⟨7, "bogus", "u", "p"⟩
    (by decide) (by decide) (by decide) (by decide) rfl
    (by decide) (by decide) (by decide)

/-- C9 counterexample: the claim says only a failure of the operator-error
notification call crashes the process. The `unwrap` on reading the body of
a non-OK Telegram response is another crash path: with the operator
channel healthy, a transport failure while reading that body panics. -/
theorem c9_panic_counterexample :
    handle_telegram_message (ProcResult.err "boom") false = HandleResult.panic ∧
    handle_telegram_message (ProcResult.err "boom") true = HandleResult.http 500 ∧
    handle_telegram_message (ProcResult.ok 400 none) true = HandleResult.panic := by
  decide

/-- C9 (amended): the webhook handler panics exactly when either the
operator-error notification call fails, or a non-OK Telegram response body
cannot be read; every other outcome produces an HTTP response without
crashing. -/
theorem c9_panic_characterization (proc : ProcResult) (reportOk : Bool) :
    handle_telegram_message proc reportOk = HandleResult.panic ↔
      ((∃ m, proc = ProcResult.err m) ∧ reportOk = false) ∨
      (∃ s, s ≠ 200 ∧ proc = ProcResult.ok s none) := by
  cases proc with
  | ok status bodyRead =>
      by_cases hs : status = 200
      · subst hs
        constructor
        · intro h
          simp [handle_telegram_message] at h
        · rintro (⟨⟨m, hm⟩, _⟩ | ⟨s, hs2, hok⟩)
          · cases hm
          · injection hok with h1 h2
            exact absurd h1.symm hs2
      · cases bodyRead with
        | some b => simp [handle_telegram_message, hs]
        | none =>
            constructor
            · intro _
              exact Or.inr ⟨status, hs, rfl⟩
            · intro _
              simp [handle_telegram_message, hs]
  | err m =>
      cases reportOk with
      | true => simp [handle_telegram_message, send_report]
      | false =>
          constructor
          · intro _
            exact Or.inl ⟨⟨m, rfl⟩, rfl⟩
          · intro _
            rfl

/-- The store component of `dispatch` does not depend on the chat id:
every store read and write inside uses the key built from the sender id
alone. -/
theorem dispatch_store_chat_independent (today : String) (f c1 c2 : Int)
    (store : Store) (payload : String) (resp : WitMessageResponse) :
    (dispatch today ⟨f, c1⟩ store payload resp).store =
      (dispatch today ⟨f, c2⟩ store payload resp).store := by
  unfold dispatch
  by_cases h1 : payload = "/start"
  · simp [h1, cmd_start_store, State.user_id]
  · by_cases h2 : payload = "/reset"
    · simp [h1, h2, cmd_reset_store, State.user_id]
    · by_cases h3 : payload = "/help"
      · simp [h1, h2, h3, cmd_help_store]
      · by_cases h4 : payload = "/test"
        · simp [h1, h2, h3, h4, cmd_test_store]
        · simp [h1, h2, h3, h4, cmd_transact_store, upload_url_store,
            upload_pat_store, State.user_id]

/-- C10: the record key is derived solely from the sender id
("telegram-user-" followed by the sender id), so two updates that differ
only in their chat leave the store in the same state, and the key function
itself ignores the chat id. -/
theorem c10_store_access_chat_independent (today : String) (store : Store)
    (upd_id mid mdate : Int) (t : Option String) (fr : Option User)
    (ch1 ch2 : Chat) (resp : WitMessageResponse) :
    (process_message today store ⟨upd_id, some ⟨mid, mdate, t, ch1, fr⟩⟩ resp).store =
      (process_message today store ⟨upd_id, some ⟨mid, mdate, t, ch2, fr⟩⟩ resp).store ∧
    (∀ f c1 c2, State.user_id ⟨f, c1⟩ = State.user_id ⟨f, c2⟩) := by
  refine ⟨?_, fun f c1 c2 => rfl⟩
  cases t with
  | none => rfl
  | some t0 =>
      cases fr with
      | none => rfl
      | some u =>
          rw [process_message_cons, process_message_cons]
          exact dispatch_store_chat_independent today u.id ch1.id ch2.id store t0 resp

end FireflyBot
